import Mathlib

/-!
Verification of the wow-guild-sync synchronization engine.

The definitions below are a shallow embedding of the JavaScript source:

* `PrismaService` (the copy embedded in `deploy.sh`, first occurrence):
  `upsertGuildMember`, `logSyncError`, `getAllMemberNames`,
  `removeDepartedMembers`, `updateActivityStatus`.
* `ExternalApiService.js`: `getMemberFromBlizzard`, URL construction of
  `getMemberFromRaiderIO` and `getBlizzardAchievementsAndPvP`,
  `getLastLoginTimestamp`.
* `GuildSyncService` (the large copy): `handleMembershipChanges`, the
  per-member loop of `runActiveCharacterSync`, and the re-entrancy guards
  of `runGuildDiscovery` / `runActiveCharacterSync`.

JavaScript numbers are modelled as `Int` (the REAL columns only ever hold
values produced by integer-valued provider fields in this code base),
timestamps as `Int` milliseconds, and JavaScript's three-way
undefined/null/value distinction by `JsVal`.  Network calls are modelled
by passing the response (or failure) of each HTTP request as explicit
data.
-/

namespace WowGuildSync

/-- A JavaScript value that may be `undefined`, `null`, or an actual value.
Prisma treats `undefined` fields as "leave unchanged" and `null` fields as
"set the column to NULL", so the distinction matters for the upsert. -/
inductive JsVal (α : Type) where
  | undef
  | null
  | val (a : α)
  deriving DecidableEq, Repr

/-- JavaScript truthiness of a string-valued expression: `undefined`,
`null` and the empty string are falsy. -/
def JsVal.truthyStr : JsVal String → Bool
  | .val s => s != ""
  | _ => false

/-- JavaScript `a || b` on string-valued expressions. -/
def jsOrStr (a b : JsVal String) : JsVal String :=
  if a.truthyStr then a else b

/-- JavaScript `e || 0` on a number-valued expression (`undefined`, `null`
and `0` are falsy and give `0`; a falsy `0` also gives `0`). -/
def jsOrZero : JsVal Int → Int
  | .val v => v
  | _ => 0

/-- JavaScript `a || b` where `a` is an optional number and `b` a number
(used for `equipped_item_level || average_item_level || 0`): `0` is falsy. -/
def jsOrInt (a : Option Int) (b : Int) : Int :=
  match a with
  | some v => if v ≠ 0 then v else b
  | none => b

/-- String interpolation of a possibly undefined/null value, as JavaScript
template literals render it. -/
def jsShowStr : JsVal String → String
  | .undef => "undefined"
  | .null => "null"
  | .val s => s

/-- Prisma semantics of one field of an `update`/`create` block over a
nullable column: `undefined` keeps the old value, `null` clears it. -/
def prismaSet {α : Type} (old : Option α) : JsVal α → Option α
  | .undef => old
  | .null => none
  | .val v => some v

/-- A row of the `guild_members` table (schema in the deploy script's
migration SQL).  Columns with SQL `DEFAULT` are still `Option`/plain
according to nullability; `last_activity_check` and `last_updated` are
modelled as integer ticks. -/
structure StoredMember where
  character_name : String
  realm : String
  class_ : Option String
  level : Option Int
  item_level : Option Int
  mythic_plus_score : Option Int
  current_saison : Option String
  pvp_2v2_rating : Option Int
  pvp_3v3_rating : Option Int
  pvp_rbg_rating : Option Int
  current_pvp_rating : Int
  solo_shuffle_rating : Option Int
  max_solo_shuffle_rating : Option Int
  achievement_points : Option Int
  raid_progress : Option String
  last_login_timestamp : Option Int
  activity_status : String
  last_activity_check : Int
  last_updated : Int
  deriving DecidableEq, Repr

/-- The JavaScript object passed to `PrismaService.upsertGuildMember`.
Every property a call site may supply appears here; call sites that omit a
property leave it `.undef`.  (Properties that `upsertGuildMember` never
reads — e.g. `current_saison`, the bracket ratings, `achievement_points` —
are still carried so the call-site objects can be translated verbatim.) -/
structure MemberInput where
  character_name : JsVal String := .undef
  name : JsVal String := .undef
  realm : JsVal String := .undef
  class_ : JsVal String := .undef
  level : JsVal Int := .undef
  item_level : JsVal Int := .undef
  mythic_plus_score : JsVal Int := .undef
  current_saison : JsVal String := .undef
  current_pvp_rating : JsVal Int := .undef
  raid_progress : JsVal String := .undef
  pvp_2v2_rating : JsVal Int := .undef
  pvp_3v3_rating : JsVal Int := .undef
  pvp_rbg_rating : JsVal Int := .undef
  achievement_points : JsVal Int := .undef
  solo_shuffle_rating : JsVal Int := .undef
  max_solo_shuffle_rating : JsVal Int := .undef
  character_api_url : JsVal String := .undef
  deriving DecidableEq, Repr

/-- `r.character_name == cn && r.realm == realm`: the unique
`(character_name, realm)` key used by the Prisma upsert/update. -/
def memberKeyMatches (r : StoredMember) (cn realm : String) : Bool :=
  r.character_name == cn && r.realm == realm

/-- The `update` block of `upsertGuildMember` (deploy-script PrismaService):
it sets `class`, `level`, `item_level`, `mythic_plus_score`,
`current_pvp_rating || 0`, `raid_progress` and `last_updated`, and touches
no other column. -/
def upsertUpdate (r : StoredMember) (m : MemberInput) (now : Int) : StoredMember :=
  { r with
    class_ := prismaSet r.class_ m.class_
    level := prismaSet r.level m.level
    item_level := prismaSet r.item_level m.item_level
    mythic_plus_score := prismaSet r.mythic_plus_score m.mythic_plus_score
    current_pvp_rating := jsOrZero m.current_pvp_rating
    raid_progress := prismaSet r.raid_progress m.raid_progress
    last_updated := now }

/-- The `create` block of `upsertGuildMember`; unspecified columns take
their SQL defaults. -/
def upsertCreate (cn realm : String) (m : MemberInput) (now : Int) : StoredMember :=
  { character_name := cn
    realm := realm
    class_ := prismaSet none m.class_
    level := prismaSet none m.level
    item_level := prismaSet none m.item_level
    mythic_plus_score := prismaSet none m.mythic_plus_score
    current_saison := none
    pvp_2v2_rating := some 0
    pvp_3v3_rating := some 0
    pvp_rbg_rating := some 0
    current_pvp_rating := jsOrZero m.current_pvp_rating
    solo_shuffle_rating := some 0
    max_solo_shuffle_rating := some 0
    achievement_points := some 0
    raid_progress := prismaSet none m.raid_progress
    last_login_timestamp := none
    activity_status := "inactive"
    last_activity_check := now
    last_updated := now }

/-- `PrismaService.upsertGuildMember`: resolves the name via
`member.character_name || member.name`, throws if name or realm is falsy,
then upserts on the `(character_name, realm)` key. -/
def upsertGuildMember (db : List StoredMember) (m : MemberInput) (now : Int) :
    Except String (List StoredMember) :=
  let characterName := jsOrStr m.character_name m.name
  if characterName.truthyStr && m.realm.truthyStr then
    let cn := jsShowStr characterName
    let realm := jsShowStr m.realm
    if db.any (fun r => memberKeyMatches r cn realm) then
      .ok (db.map (fun r => if memberKeyMatches r cn realm then upsertUpdate r m now else r))
    else
      .ok (db ++ [upsertCreate cn realm m now])
  else
    .error ("Invalid member data: character_name=" ++ jsShowStr characterName ++
      ", realm=" ++ jsShowStr m.realm)

/-- A row of the `sync_errors` table. -/
structure SyncError where
  character_name : String
  realm : String
  error_type : String
  error_message : String
  service : String
  url_attempted : Option String
  deriving DecidableEq, Repr

/-- The underlying `prisma.syncError.create` call, which may fail; the
`writeOk` flag is the outcome of the database write. -/
def syncErrorCreate (errs : List SyncError) (e : SyncError) (writeOk : Bool) :
    Except String (List SyncError) :=
  if writeOk then .ok (errs ++ [e]) else .error "database write failed"

/-- `PrismaService.logSyncError`: wraps the create in try/catch; a failed
write is logged to the console and swallowed, so the function itself
always returns normally. -/
def logSyncError (errs : List SyncError) (characterName realm errorType errorMessage service : String)
    (urlAttempted : Option String) (writeOk : Bool) : Except String (List SyncError) :=
  match syncErrorCreate errs ⟨characterName, realm, errorType, errorMessage, service, urlAttempted⟩ writeOk with
  | .ok errs2 => .ok errs2
  | .error _ => .ok errs

/-- `PrismaService.getAllMemberNames`: the `character_name` column of every
row (realms are not selected). -/
def getAllMemberNames (db : List StoredMember) : List String :=
  db.map (·.character_name)

/-- `PrismaService.removeDepartedMembers`: `deleteMany` of every row whose
`character_name` is in the list; returns the remaining rows and the delete
count. -/
def removeDepartedMembers (db : List StoredMember) (departedMemberNames : List String) :
    List StoredMember × Nat :=
  if departedMemberNames.isEmpty then (db, 0)
  else
    ((db.filter fun r => !(departedMemberNames.contains r.character_name)),
     (db.filter fun r => departedMemberNames.contains r.character_name).length)

/-- One entry of the roster returned by `ExternalApiService.getMembers`. -/
structure RosterEntry where
  name : String
  realm : String
  level : Option Int
  class_ : String
  character_api_url : Option String
  deriving DecidableEq, Repr

/-- `GuildSyncService.handleMembershipChanges`: diffs the fresh roster
against the persisted names BY CHARACTER NAME ONLY (`m.name`), and deletes
departed rows through `removeDepartedMembers` when any were found.
Returns (new member names, departed member names, resulting table). -/
def handleMembershipChanges (db : List StoredMember) (currentMembers : List RosterEntry) :
    List String × List String × List StoredMember :=
  let currentNames := currentMembers.map (·.name)
  let existingNames := getAllMemberNames db
  let newMembers := currentNames.filter fun n => !(existingNames.contains n)
  let departedMembers := existingNames.filter fun n => !(currentNames.contains n)
  let db2 := if departedMembers.length > 0 then (removeDepartedMembers db departedMembers).1 else db
  (newMembers, departedMembers, db2)

/-- Specification-side reconciliation, written from the spec's words: a
pure set difference keyed by the `(characterName, realm)` identity pair. -/
def reconcileSpec (freshRoster persisted : List (String × String)) :
    List (String × String) × List (String × String) :=
  ((freshRoster.filter fun p => !(persisted.contains p)),
   (persisted.filter fun p => !(freshRoster.contains p)))

/-! ### Activity classification (`getLastLoginTimestamp`, `updateActivityStatus`) -/

/-- The value returned by `ExternalApiService.getLastLoginTimestamp`. -/
structure ActivityResult where
  last_login_timestamp : Option Int
  activity_status : String
  days_since_login : Option Int
  error : Option String
  deriving DecidableEq, Repr

/-- Outcome of the HTTP request made by `getLastLoginTimestamp`: a
successful response carrying an optional `last_login_timestamp` field, a
404, or any other failure (re-thrown). -/
inductive LoginFetch where
  | ok (last_login_timestamp : Option Int)
  | notFound
  | failed (msg : String)
  deriving DecidableEq, Repr

def msPerDay : Int := 86400000

/-- `ExternalApiService.getLastLoginTimestamp`: when the response carries a
truthy `last_login_timestamp`, `daysSince = Math.floor((now - t)/day)` and
the status is `active` iff `daysSince <= 30`; a missing (or falsy)
timestamp yields status `inactive`; a 404 yields `inactive` with
`error: 'character_not_found'`; any other failure is re-thrown. -/
def getLastLoginTimestamp (resp : LoginFetch) (now : Int) : Except String ActivityResult :=
  match resp with
  | .ok lastLogin =>
    match lastLogin with
    | some t =>
      if t ≠ 0 then
        let daysSince := (now - t).fdiv msPerDay
        let activityStatus := if daysSince ≤ 30 then "active" else "inactive"
        .ok ⟨some t, activityStatus, some daysSince, none⟩
      else
        .ok ⟨none, "inactive", none, none⟩
    | none => .ok ⟨none, "inactive", none, none⟩
  | .notFound => .ok ⟨none, "inactive", none, some "character_not_found"⟩
  | .failed msg => .error msg

/-- `PrismaService.updateActivityStatus`: always stamps
`last_activity_check`; a truthy `last_login_timestamp` stores timestamp and
status, otherwise the status is forced to `inactive`.  `prisma.update`
throws when no row matches the key. -/
def updateActivityStatus (db : List StoredMember) (characterName realm : String)
    (a : ActivityResult) (now : Int) : Except String (List StoredMember) :=
  if db.any (fun r => memberKeyMatches r characterName realm) then
    .ok (db.map fun r =>
      if memberKeyMatches r characterName realm then
        match a.last_login_timestamp with
        | some t =>
          if t ≠ 0 then
            { r with last_activity_check := now, last_login_timestamp := some t,
                     activity_status := a.activity_status }
          else { r with last_activity_check := now, activity_status := "inactive" }
        | none => { r with last_activity_check := now, activity_status := "inactive" }
      else r)
  else .error "Record to update not found"

/-! ### Provider data (`getMemberFromBlizzard` and the enrichment upsert) -/

/-- The record returned by `getMemberFromRaiderIO` / `getMemberFromBlizzard`
(the fields the sync loop consumes). -/
structure MemberData where
  source : String
  character_class : String
  level : Int
  item_level : Int
  mythic_plus_score : Int
  current_saison : Option String
  current_pvp_rating : Int
  raid_progress : Option String
  pvp_2v2_rating : Int
  pvp_3v3_rating : Int
  pvp_rbg_rating : Int
  achievement_points : Int
  solo_shuffle_rating : Int
  max_solo_shuffle_rating : Int
  deriving DecidableEq, Repr

/-- One successfully fetched Solo Shuffle bracket response. -/
structure ShuffleBracket where
  rating : Option Int
  season_best_rating : Option Int
  deriving DecidableEq, Repr

/-- The relevant fields of the Blizzard character-profile response. -/
structure BlizzardCharacterResponse where
  character_class_name : Option String
  level : Option Int
  equipped_item_level : Option Int
  average_item_level : Option Int
  deriving DecidableEq, Repr

/-- Outcomes of the individual HTTP requests `getMemberFromBlizzard`
makes after the main profile request succeeded.  `none` models a
sub-request whose failure the source catches (achievements, each PvP
bracket, the PvP summary); bracket requests that failed are simply not in
`shuffleBrackets`. -/
structure BlizzardOutcome where
  character : BlizzardCharacterResponse
  achievements_total_points : Option Int
  pvp2v2 : Option Int
  pvp3v3 : Option Int
  pvpRbg : Option Int
  shuffleBrackets : Option (List ShuffleBracket)
  deriving DecidableEq, Repr

/-- The shuffle-bracket loop: keeps the highest `rating || 0`, together
with that bracket's `season_best_rating || rating`. -/
def bestShuffle (brackets : List ShuffleBracket) : Int × Int :=
  brackets.foldl
    (fun acc b =>
      let rating := (jsOrInt b.rating 0)
      let maxRating := jsOrInt b.season_best_rating rating
      if rating > acc.1 then (rating, maxRating) else acc)
    (0, 0)

/-- `ExternalApiService.getMemberFromBlizzard`, given the outcome of its
sub-requests.  Note: `mythic_plus_score` is hard-coded `0` and
`raid_progress` / `current_saison` hard-coded `null`, because the Blizzard
API does not provide them. -/
def getMemberFromBlizzard (o : BlizzardOutcome) : MemberData :=
  let characterClass :=
    match o.character.character_class_name with
    | some s => if s ≠ "" then s else "Unknown"
    | none => "Unknown"
  let level := jsOrInt o.character.level 0
  let itemLevel := jsOrInt o.character.equipped_item_level (jsOrInt o.character.average_item_level 0)
  let achievementPoints := jsOrInt o.achievements_total_points 0
  let pvp2v2 := jsOrInt o.pvp2v2 0
  let pvp3v3 := jsOrInt o.pvp3v3 0
  let pvpRbg := jsOrInt o.pvpRbg 0
  let currentPvpRating := max (max pvp2v2 pvp3v3) pvpRbg
  let shuffle :=
    match o.shuffleBrackets with
    | some bs => bestShuffle bs
    | none => (0, 0)
  { source := "blizzard"
    character_class := characterClass
    level := level
    item_level := itemLevel
    mythic_plus_score := 0
    current_saison := none
    current_pvp_rating := currentPvpRating
    raid_progress := none
    pvp_2v2_rating := pvp2v2
    pvp_3v3_rating := pvp3v3
    pvp_rbg_rating := pvpRbg
    achievement_points := achievementPoints
    solo_shuffle_rating := shuffle.1
    max_solo_shuffle_rating := shuffle.2 }

/-- The object literal `runActiveCharacterSync` passes to
`upsertGuildMember` for an active member (`member`) and fetched data
(`data`).  `level` is deliberately omitted (commented out in the source);
fields the provider models as absent are passed as JavaScript `null`. -/
def acsUpsertInput (member : StoredMember) (data : MemberData) : MemberInput :=
  { character_name := .val member.character_name
    realm := .val member.realm
    class_ :=
      if data.character_class ≠ "" then .val data.character_class
      else match member.class_ with
        | some c => .val c
        | none => .null
    item_level := .val data.item_level
    mythic_plus_score := .val data.mythic_plus_score
    current_saison :=
      match data.current_saison with
      | some s => .val s
      | none => .null
    current_pvp_rating := .val data.current_pvp_rating
    raid_progress :=
      match data.raid_progress with
      | some s => .val s
      | none => .null
    pvp_2v2_rating := .val data.pvp_2v2_rating
    pvp_3v3_rating := .val data.pvp_3v3_rating
    pvp_rbg_rating := .val data.pvp_rbg_rating
    achievement_points := .val data.achievement_points
    solo_shuffle_rating := .val data.solo_shuffle_rating
    max_solo_shuffle_rating := .val data.max_solo_shuffle_rating }

/-! ### The enrichment batch loop of `runActiveCharacterSync` -/

/-- Outcome of `externalApi.getMember(...)` for one member: data, a falsy
result, or a thrown error. -/
inductive FetchResult where
  | ok (data : MemberData)
  | noData
  | failed (msg : String)
  deriving DecidableEq, Repr

/-- The mutable state the batch loop touches: the member table, the
persisted `sync_errors` table, the in-memory `recentErrors` array and the
two counters. -/
structure SyncState where
  db : List StoredMember
  syncErrors : List SyncError
  recentErrors : List (String × String)
  syncedCount : Nat
  errorCount : Nat
  deriving DecidableEq, Repr

/-- One iteration body of the `runActiveCharacterSync` loop: on data,
upsert (a throwing upsert is caught by the same catch block); on a falsy
result or a thrown error, bump the error counter and push one entry onto
`recentErrors`.  No branch writes to `sync_errors`. -/
def acsProcessMember (st : SyncState) (member : StoredMember) (res : FetchResult) (now : Int) :
    SyncState :=
  match res with
  | .ok data =>
    match upsertGuildMember st.db (acsUpsertInput member data) now with
    | .ok db2 => { st with db := db2, syncedCount := st.syncedCount + 1 }
    | .error msg =>
      { st with errorCount := st.errorCount + 1,
                recentErrors := st.recentErrors ++ [(member.character_name, msg)] }
  | .noData =>
    { st with errorCount := st.errorCount + 1,
              recentErrors := st.recentErrors ++ [(member.character_name, "No data returned from API")] }
  | .failed msg =>
    { st with errorCount := st.errorCount + 1,
              recentErrors := st.recentErrors ++ [(member.character_name, msg)] }

/-- The member loop of `runActiveCharacterSync`: before processing member
`i` it checks `this.isRunning` (modelled as `running i`, since `stop()`
may clear the flag between iterations) and breaks when it is false. -/
def runActiveCharacterSyncLoop (fetch : StoredMember → FetchResult) (running : Nat → Bool)
    (now : Int) : List StoredMember → Nat → SyncState → SyncState
  | [], _, st => st
  | member :: rest, i, st =>
    if running i then
      runActiveCharacterSyncLoop fetch running now rest (i + 1)
        (acsProcessMember st member (fetch member) now)
    else st

/-! ### Orchestrator re-entrancy guards -/

/-- The orchestrator flags, plus run counters (number of runs of each tier
currently in progress) used to state the at-most-one property. -/
structure OrchState where
  isRunning : Bool
  isGuildDiscoveryRunning : Bool
  isActiveSyncRunning : Bool
  discoveryRuns : Nat
  activeSyncRuns : Nat
  deriving DecidableEq, Repr

/-- Events of the orchestrator: a scheduled (or manual) trigger of either
tier, completion of a run (the `finally` block), and `stop()`. -/
inductive OrchEvent where
  | discoveryTrigger
  | discoveryFinish
  | activeSyncTrigger
  | activeSyncFinish
  | stopService
  deriving DecidableEq, Repr

/-- State after `start()` set `isRunning = true`. -/
def orchInit : OrchState := ⟨true, false, false, 0, 0⟩

/-- One atomic event.  A trigger replays the guards of the cron callback
and of `runGuildDiscovery`/`runActiveCharacterSync` (check flag, return if
set, else set it — no awaits in between); `finish` is the `finally` block
clearing the flag. -/
def orchStep (s : OrchState) : OrchEvent → OrchState
  | .discoveryTrigger =>
    if !s.isRunning || s.isGuildDiscoveryRunning then s
    else { s with isGuildDiscoveryRunning := true, discoveryRuns := s.discoveryRuns + 1 }
  | .discoveryFinish =>
    { s with isGuildDiscoveryRunning := false, discoveryRuns := s.discoveryRuns - 1 }
  | .activeSyncTrigger =>
    if !s.isRunning || s.isActiveSyncRunning then s
    else { s with isActiveSyncRunning := true, activeSyncRuns := s.activeSyncRuns + 1 }
  | .activeSyncFinish =>
    { s with isActiveSyncRunning := false, activeSyncRuns := s.activeSyncRuns - 1 }
  | .stopService => { s with isRunning := false }

/-- The orchestrator state reached after a sequence of events. -/
def orchRun (events : List OrchEvent) : OrchState :=
  events.foldl orchStep orchInit

/-! ### URL construction (canonical lookup handle vs manual reconstruction) -/

/-- UTF-8 bytes of a code point (as natural numbers). -/
def utf8Bytes (n : Nat) : List Nat :=
  if n < 128 then [n]
  else if n < 2048 then [192 + n / 64, 128 + n % 64]
  else if n < 65536 then [224 + n / 4096, 128 + (n / 64) % 64, 128 + n % 64]
  else [240 + n / 262144, 128 + (n / 4096) % 64, 128 + (n / 64) % 64, 128 + n % 64]

/-- Upper-case hexadecimal digit. -/
def hexDigit (n : Nat) : Char :=
  if n < 10 then Char.ofNat (48 + n) else Char.ofNat (55 + n)

/-- Characters `encodeURIComponent` leaves unescaped. -/
def uriUnreservedChar (c : Char) : Bool :=
  c.isAlphanum || c == '-' || c == '_' || c == '.' || c == '!' || c == '~' ||
    c == '*' || c == Char.ofNat 39 || c == '(' || c == ')'

/-- JavaScript `String.prototype.toLowerCase` (character-wise). -/
def jsToLowerCase (s : String) : String :=
  String.mk (s.data.map Char.toLower)

/-- JavaScript `encodeURIComponent`. -/
def encodeURIComponent (s : String) : String :=
  String.join (s.data.map fun c =>
    if uriUnreservedChar c then String.mk [c]
    else String.mk (((utf8Bytes c.toNat).map fun b => ['%', hexDigit (b / 16), hexDigit (b % 16)]).flatten))

/-- The Raider.IO profile URL of `getMemberFromRaiderIO` — built from
`(name, realm, region)`, never from a lookup handle. -/
def raiderIOProfileUrl (name realm region : String) : String :=
  "https://raider.io/api/v1/characters/profile?region=" ++ region ++ "&realm=" ++ realm ++
    "&name=" ++ encodeURIComponent name ++
    "&fields=gear,mythic_plus_scores_by_season:current,raid_progression"

/-- The manually reconstructed Blizzard character base URL
(`https://region.api.blizzard.com/profile/wow/character/realm/name`). -/
def blizzardManualCharacterBaseUrl (name realm region : String) : String :=
  "https://" ++ region ++ ".api.blizzard.com/profile/wow/character/" ++
    encodeURIComponent (jsToLowerCase realm) ++ "/" ++ encodeURIComponent (jsToLowerCase name)

/-- The `baseUrl` of `getBlizzardAchievementsAndPvP` (source lines 210–215):
always the manual reconstruction; the function does not even receive the
lookup handle. -/
def blizzardAchievementsAndPvPBaseUrl (name realm region : String) : String :=
  blizzardManualCharacterBaseUrl name realm region

/-- The `characterUrl` of `getMemberFromBlizzard` (source lines 373–386):
the provided handle with `&locale=en_US` appended when present, otherwise
the manual reconstruction. -/
def blizzardCharacterProfileUrl (name realm region : String) (characterApiUrl : Option String) :
    String :=
  match characterApiUrl with
  | some u => u ++ "&locale=en_US"
  | none =>
    blizzardManualCharacterBaseUrl name realm region ++ "?namespace=profile-" ++ region ++
      "&locale=en_US"

/-- The per-character profile URLs requested along `getMember(..., 'auto')`:
the Raider.IO attempt always happens first; when it succeeds the Blizzard
enrichment of the Raider.IO path runs (manual base URL), when it fails the
code falls back to `getMemberFromBlizzard` (handle-aware URL). -/
def getMemberAutoProfileUrls (name realm region : String) (characterApiUrl : Option String)
    (raiderIOSucceeds : Bool) : List String :=
  if raiderIOSucceeds then
    [raiderIOProfileUrl name realm region, blizzardAchievementsAndPvPBaseUrl name realm region]
  else
    [raiderIOProfileUrl name realm region,
     blizzardCharacterProfileUrl name realm region characterApiUrl]

/-! ## Claims -/

/-- C9: the persistence upsert rejects identity-less records — when neither
`character_name` nor `name` is present, or `realm` is missing, the call
throws before touching the store (it returns the error without producing a
new table, so no row is created or updated). -/
theorem C9_upsert_rejects_missing_identity (db : List StoredMember) (m : MemberInput) (now : Int)
    (h : (m.character_name = .undef ∧ m.name = .undef) ∨ m.realm = .undef) :
    upsertGuildMember db m now =
      .error ("Invalid member data: character_name=" ++ jsShowStr (jsOrStr m.character_name m.name) ++
        ", realm=" ++ jsShowStr m.realm) := by
  rcases h with ⟨h1, h2⟩ | h1
  · simp [upsertGuildMember, h1, h2, jsOrStr, JsVal.truthyStr]
  · have : m.realm.truthyStr = false := by rw [h1]; rfl
    simp [upsertGuildMember, this]

/-- Witness for C9 at a concrete identity-less record. -/
theorem C9_upsert_rejects_missing_identity_witness :
    upsertGuildMember [] { realm := .val "silvermoon" } 0 =
      .error "Invalid member data: character_name=undefined, realm=silvermoon" :=
  C9_upsert_rejects_missing_identity [] { realm := .val "silvermoon" } 0 (Or.inl ⟨rfl, rfl⟩)

/-- C10: error logging is infallible at its interface — whatever the
outcome of the underlying `sync_errors` write, `logSyncError` returns
normally (it never propagates an exception), appending the row exactly
when the write succeeded. -/
theorem C10_logSyncError_never_throws (errs : List SyncError)
    (characterName realm errorType errorMessage service : String) (urlAttempted : Option String)
    (writeOk : Bool) :
    logSyncError errs characterName realm errorType errorMessage service urlAttempted writeOk =
      .ok (if writeOk then
            errs ++ [⟨characterName, realm, errorType, errorMessage, service, urlAttempted⟩]
          else errs) := by
  cases writeOk <;> simp [logSyncError, syncErrorCreate]

/-- Floor-division boundary: `Math.floor(x / day) <= 30` holds exactly when
`x` is below 31 days. -/
theorem fdiv_msPerDay_le_thirty_iff (x : Int) : x.fdiv msPerDay ≤ 30 ↔ x < 31 * msPerDay := by
  rw [msPerDay, Int.fdiv_eq_ediv _ (by norm_num), show (30:Int) = 31 - 1 by ring,
    Int.le_sub_one_iff, Int.ediv_lt_iff_lt_mul (by norm_num)]

/-- C2 counterexample: the claimed classifier is contradicted at two
concrete inputs — a missing timestamp is classified `inactive`, not
`unknown`, and one second past the 30-day window (`now - t` equal to
30 days + 1 s) the code still classifies `active` because it compares
whole elapsed days (`Math.floor`) to 30. -/
theorem C2_classifier_counterexample :
    getLastLoginTimestamp (LoginFetch.ok none) 0 = .ok ⟨none, "inactive", none, none⟩ ∧
    "inactive" ≠ "unknown" ∧
    getLastLoginTimestamp (LoginFetch.ok (some 1000)) (1000 + 30 * msPerDay + 1000) =
      .ok ⟨some 1000, "active", some 30, none⟩ ∧
    ¬ ((1000 + 30 * msPerDay + 1000) - 1000 ≤ 30 * msPerDay) := by
  refine ⟨rfl, by decide, by rfl, by decide⟩

/-- C2 (amended): activity classification is the pure function of the
last-seen timestamp that the code implements — a missing timestamp yields
`inactive` (never `unknown`), and for a present non-zero timestamp the
status is `active` iff `now - t` is below 31 days, i.e. iff the number of
whole elapsed days is at most 30 (the hard-coded window). -/
theorem C2_activity_classification (t now : Int) (ht : t ≠ 0) :
    (∃ r, getLastLoginTimestamp (LoginFetch.ok (some t)) now = .ok r ∧
      r.last_login_timestamp = some t ∧
      (r.activity_status = "active" ↔ now - t < 31 * msPerDay) ∧
      (r.activity_status = "inactive" ↔ 31 * msPerDay ≤ now - t)) ∧
    getLastLoginTimestamp (LoginFetch.ok none) now = .ok ⟨none, "inactive", none, none⟩ := by
  refine ⟨⟨⟨some t, if (now - t).fdiv msPerDay ≤ 30 then "active" else "inactive",
    some ((now - t).fdiv msPerDay), none⟩, ?_, rfl, ?_, ?_⟩, rfl⟩
  · simp only [getLastLoginTimestamp, ht, if_true]
    split <;> rfl
  · rw [← fdiv_msPerDay_le_thirty_iff]
    split <;> rename_i h <;> simp [h]
  · have hns : (31 * msPerDay ≤ now - t) ↔ ¬ ((now - t).fdiv msPerDay ≤ 30) := by
      rw [fdiv_msPerDay_le_thirty_iff]; exact not_lt.symm
    rw [hns]
    split <;> rename_i h <;> simp [h]

/-- Witness for C2 at `t = 1000`, `now = 1000 + 31` days: classified
`inactive`. -/
theorem C2_activity_classification_witness :
    (1000 : Int) ≠ 0 ∧
    ((∃ r, getLastLoginTimestamp (LoginFetch.ok (some 1000)) (1000 + 31 * msPerDay) = .ok r ∧
      r.last_login_timestamp = some 1000 ∧
      (r.activity_status = "active" ↔ (1000 + 31 * msPerDay) - 1000 < 31 * msPerDay) ∧
      (r.activity_status = "inactive" ↔ 31 * msPerDay ≤ (1000 + 31 * msPerDay) - 1000)) ∧
    getLastLoginTimestamp (LoginFetch.ok none) (1000 + 31 * msPerDay) =
      .ok ⟨none, "inactive", none, none⟩) :=
  ⟨by decide, C2_activity_classification 1000 (1000 + 31 * msPerDay) (by decide)⟩

/-- The per-tier run counter always mirrors the tier's re-entrancy flag. -/
def OrchInv (s : OrchState) : Prop :=
  s.discoveryRuns = (if s.isGuildDiscoveryRunning then 1 else 0) ∧
  s.activeSyncRuns = (if s.isActiveSyncRunning then 1 else 0)

theorem orchStep_preserves_inv (s : OrchState) (e : OrchEvent) (h : OrchInv s) :
    OrchInv (orchStep s e) := by
  obtain ⟨h1, h2⟩ := h
  cases e <;> simp only [orchStep, OrchInv] <;> split_ifs <;> simp_all <;>
    split_ifs <;> simp_all

theorem orchRun_inv (events : List OrchEvent) : OrchInv (orchRun events) := by
  have aux : ∀ (evs : List OrchEvent) (s : OrchState), OrchInv s → OrchInv (evs.foldl orchStep s) := by
    intro evs
    induction evs with
    | nil => intro s hs; exact hs
    | cons e rest ih => intro s hs; exact ih _ (orchStep_preserves_inv s e hs)
  exact aux events orchInit ⟨rfl, rfl⟩

/-- C5: each scheduler tier enforces at most one concurrent run of itself —
in every state reachable from startup the per-tier run counters never
exceed 1, and a trigger that arrives while the same tier's flag is set
leaves the state completely unchanged (the trigger is dropped, nothing is
queued). -/
theorem C5_tier_mutual_exclusion :
    (∀ events : List OrchEvent,
      (orchRun events).discoveryRuns ≤ 1 ∧ (orchRun events).activeSyncRuns ≤ 1) ∧
    (∀ s : OrchState, s.isGuildDiscoveryRunning = true → orchStep s .discoveryTrigger = s) ∧
    (∀ s : OrchState, s.isActiveSyncRunning = true → orchStep s .activeSyncTrigger = s) := by
  refine ⟨fun events => ?_, fun s hs => ?_, fun s hs => ?_⟩
  · obtain ⟨h1, h2⟩ := orchRun_inv events
    constructor
    · rw [h1]; split <;> omega
    · rw [h2]; split <;> omega
  · simp [orchStep, hs]
  · simp [orchStep, hs]

/-- Witness for C5: a double trigger leaves a single discovery run, and a
trigger against a state whose tier flag is set is a no-op. -/
theorem C5_tier_mutual_exclusion_witness :
    ((orchRun [.discoveryTrigger, .discoveryTrigger]).discoveryRuns ≤ 1 ∧
      (orchRun [.discoveryTrigger, .discoveryTrigger]).activeSyncRuns ≤ 1) ∧
    orchStep ⟨true, true, false, 1, 0⟩ .discoveryTrigger = ⟨true, true, false, 1, 0⟩ ∧
    orchStep ⟨true, false, true, 0, 1⟩ .activeSyncTrigger = ⟨true, false, true, 0, 1⟩ :=
  ⟨C5_tier_mutual_exclusion.1 [.discoveryTrigger, .discoveryTrigger],
   C5_tier_mutual_exclusion.2.1 ⟨true, true, false, 1, 0⟩ rfl,
   C5_tier_mutual_exclusion.2.2 ⟨true, false, true, 0, 1⟩ rfl⟩

/-- For a name known to be in `existing`, not being in the name-keyed
departed list is the same as appearing in the current roster names. -/
theorem not_contains_filter_not_contains {existing current : List String} {x : String}
    (hx : x ∈ existing) :
    (!((existing.filter fun n => !(current.contains n)).contains x)) = current.contains x := by
  cases hc : current.contains x
  · have hin : x ∈ existing.filter fun n => !(current.contains n) :=
      List.mem_filter.mpr ⟨hx, by rw [hc]; rfl⟩
    have h1 : (existing.filter fun n => !(current.contains n)).contains x = true :=
      List.elem_iff.mpr hin
    rw [h1]
    rfl
  · have hnotin : x ∉ existing.filter fun n => !(current.contains n) := by
      intro hin
      have h2 := (List.mem_filter.mp hin).2
      rw [hc] at h2
      simp at h2
    have h1 : (existing.filter fun n => !(current.contains n)).contains x = false := by
      cases h : (existing.filter fun n => !(current.contains n)).contains x
      · rfl
      · exact absurd (List.elem_iff.mp h) hnotin
    rw [h1]
    rfl

/-- A stored member row with the given key and every other column at its
freshly-created default. -/
def mkMember (name realm : String) : StoredMember :=
  { character_name := name, realm := realm, class_ := none, level := none, item_level := none,
    mythic_plus_score := none, current_saison := none, pvp_2v2_rating := some 0,
    pvp_3v3_rating := some 0, pvp_rbg_rating := some 0, current_pvp_rating := 0,
    solo_shuffle_rating := some 0, max_solo_shuffle_rating := some 0, achievement_points := some 0,
    raid_progress := none, last_login_timestamp := none, activity_status := "inactive",
    last_activity_check := 0, last_updated := 0 }

/-- A roster entry with the given identity. -/
def mkRoster (name realm : String) : RosterEntry :=
  ⟨name, realm, none, "Unknown", none⟩

/-- The member table produced by `handleMembershipChanges` keeps exactly
the rows whose character name occurs in the fresh roster. -/
theorem handleMembershipChanges_table (currentMembers : List RosterEntry) (db : List StoredMember) :
    (handleMembershipChanges db currentMembers).2.2 =
      db.filter (fun r => (currentMembers.map (·.name)).contains r.character_name) := by
  show (if (List.filter _ (getAllMemberNames db)).length > 0 then _ else db) = _
  split
  · rename_i hlen
    rw [removeDepartedMembers]
    rw [if_neg (by
      intro hemp
      rw [List.isEmpty_iff] at hemp
      rw [hemp] at hlen
      simp at hlen)]
    refine List.filter_congr ?_
    intro r hr
    exact not_contains_filter_not_contains (List.mem_map_of_mem _ hr)
  · rename_i hlen
    have hnil : (getAllMemberNames db).filter
        (fun n => !((currentMembers.map (·.name)).contains n)) = [] := by
      have h0 : (List.filter (fun n => !((currentMembers.map (·.name)).contains n))
          (getAllMemberNames db)).length = 0 := Nat.eq_zero_of_not_pos (by simpa using hlen)
      exact List.eq_nil_of_length_eq_zero h0
    symm
    rw [List.filter_eq_self]
    intro r hr
    have hmem : r.character_name ∈ getAllMemberNames db := List.mem_map_of_mem _ hr
    have hkey := @not_contains_filter_not_contains (getAllMemberNames db)
      (currentMembers.map (·.name)) r.character_name hmem
    rw [hnil] at hkey
    simpa using hkey.symm

/-- C3 counterexample: reconciliation is NOT keyed by the
`(characterName, realm)` pair.  With roster `[(A, realm2)]` and persisted
`[(A, realm1)]` the pair-keyed difference demanded by the claim yields
`joined = [(A, realm2)]`, `departed = [(A, realm1)]`, but the code — which
compares character names only — reports no change at all and keeps the
`(A, realm1)` row. -/
theorem C3_reconcile_counterexample :
    handleMembershipChanges [mkMember "A" "realm1"] [mkRoster "A" "realm2"] =
      ([], [], [mkMember "A" "realm1"]) ∧
    reconcileSpec [("A", "realm2")] [("A", "realm1")] =
      ([("A", "realm2")], [("A", "realm1")]) ∧
    ([] : List String) ≠ [("A", "realm2")].map Prod.fst := by
  exact ⟨rfl, rfl, by decide⟩

/-- C3 (amended): membership reconciliation is a pure set difference keyed
by character name alone — `joined` is exactly the roster names not yet
persisted, `departed` exactly the persisted names missing from the roster,
and the resulting table keeps exactly the rows whose name appears in the
roster (realms are ignored by the diff).  On the claim's concrete scenario
(all names distinct) this agrees with the pair-keyed reading: joined `B`,
departed `C`. -/
theorem C3_reconciliation_by_name (currentMembers : List RosterEntry) (db : List StoredMember) :
    (∀ n, n ∈ (handleMembershipChanges db currentMembers).1 ↔
      n ∈ currentMembers.map (·.name) ∧ n ∉ getAllMemberNames db) ∧
    (∀ n, n ∈ (handleMembershipChanges db currentMembers).2.1 ↔
      n ∈ getAllMemberNames db ∧ n ∉ currentMembers.map (·.name)) ∧
    (handleMembershipChanges db currentMembers).2.2 =
      db.filter (fun r => (currentMembers.map (·.name)).contains r.character_name) ∧
    handleMembershipChanges [mkMember "A" "realm1", mkMember "C" "realm3"]
        [mkRoster "A" "realm1", mkRoster "B" "realm2"] =
      (["B"], ["C"], [mkMember "A" "realm1"]) := by
  refine ⟨?_, ?_, ?_, rfl⟩
  · intro n
    simp [handleMembershipChanges, List.mem_filter, List.elem_iff]
  · intro n
    simp [handleMembershipChanges, List.mem_filter, List.elem_iff]
  · exact handleMembershipChanges_table currentMembers db

/-- C6 counterexample: the identity `(A, realm2)` is persisted and absent
from the fresh roster `[(A, realm1)]`, so the claim demands exactly one
deleted row — but the name-keyed departure handling deletes nothing (the
name `A` is still present) and the row survives. -/
theorem C6_departure_counterexample :
    (handleMembershipChanges [mkMember "A" "realm2"] [mkRoster "A" "realm1"]).2.2 =
      [mkMember "A" "realm2"] ∧
    ("A", "realm2") ∉ ([mkRoster "A" "realm1"].map fun e => (e.name, e.realm)) ∧
    ("A", "realm2") ∈ ([mkMember "A" "realm2"].map fun r => (r.character_name, r.realm)) := by
  exact ⟨rfl, by decide, by decide⟩

/-- C6 (amended): departure deletion is keyed by character name — a
persisted row is deleted during discovery exactly when its
`character_name` does not occur among the fresh roster's names;
`removeDepartedMembers` deletes precisely the rows whose name is listed
(each once, reporting their number) and no other row. -/
theorem C6_departed_deletion_by_name (db : List StoredMember) (names : List String)
    (currentMembers : List RosterEntry) (r : StoredMember) :
    (removeDepartedMembers db names).1 =
      db.filter (fun r2 => !(names.contains r2.character_name)) ∧
    (removeDepartedMembers db names).2 =
      (db.filter (fun r2 => names.contains r2.character_name)).length ∧
    (r ∈ db →
      (r ∈ (handleMembershipChanges db currentMembers).2.2 ↔
        (currentMembers.map (·.name)).contains r.character_name = true)) := by
  refine ⟨?_, ?_, fun hr => ?_⟩
  · rw [removeDepartedMembers]
    split
    · rename_i hemp
      rw [List.isEmpty_iff] at hemp
      subst hemp
      symm
      rw [List.filter_eq_self]
      intro a _
      rfl
    · rfl
  · rw [removeDepartedMembers]
    split
    · rename_i hemp
      rw [List.isEmpty_iff] at hemp
      subst hemp
      show 0 = (List.filter (fun _ => ([] : List String).contains _) db).length
      rw [show (List.filter (fun r2 => ([] : List String).contains r2.character_name) db) =
        List.filter (fun _ => false) db from rfl]
      simp
    · rfl
  · rw [handleMembershipChanges_table]
    rw [List.mem_filter]
    simp [hr]

/-- Witness for C6 (amended) at a one-row table. -/
theorem C6_departed_deletion_by_name_witness :
    (removeDepartedMembers [mkMember "A" "r1"] ["A"]).1 =
      [mkMember "A" "r1"].filter (fun r2 => !(["A"].contains r2.character_name)) ∧
    mkMember "A" "r1" ∈ [mkMember "A" "r1"] ∧
    (mkMember "A" "r1" ∈ (handleMembershipChanges [mkMember "A" "r1"] [mkRoster "A" "r1"]).2.2 ↔
      ([mkRoster "A" "r1"].map (·.name)).contains (mkMember "A" "r1").character_name = true) :=
  ⟨(C6_departed_deletion_by_name [mkMember "A" "r1"] ["A"] [mkRoster "A" "r1"]
      (mkMember "A" "r1")).1,
   by decide,
   (C6_departed_deletion_by_name [mkMember "A" "r1"] ["A"] [mkRoster "A" "r1"]
      (mkMember "A" "r1")).2.2 (by decide)⟩

/-- C7 counterexample: for a member whose roster entry carries the handle
`.../character/federated-realm/krabs?namespace=profile-eu`, the Blizzard
achievements/PvP enrichment performed on the Raider.IO path still builds
its base URL from `(name, realm)` — producing the `realm1` path, not the
handle's `federated-realm` path — while only the fallback profile call
consumes the handle. -/
theorem C7_handle_counterexample :
    blizzardAchievementsAndPvPBaseUrl "Krabs" "Realm1" "eu" =
      "https://eu.api.blizzard.com/profile/wow/character/realm1/krabs" ∧
    "https://eu.api.blizzard.com/profile/wow/character/realm1/krabs" ≠
      "https://eu.api.blizzard.com/profile/wow/character/federated-realm/krabs" ∧
    blizzardCharacterProfileUrl "Krabs" "Realm1" "eu"
        (some "https://eu.api.blizzard.com/profile/wow/character/federated-realm/krabs?namespace=profile-eu") =
      "https://eu.api.blizzard.com/profile/wow/character/federated-realm/krabs?namespace=profile-eu&locale=en_US" := by
  exact ⟨by decide, by decide, rfl⟩

/-- C7 (amended): the canonical lookup handle is consumed only by the
character-profile request of `getMemberFromBlizzard` (the fallback); the
Raider.IO profile request and the Blizzard achievements/PvP requests of
the Raider.IO path are built from `(name, realm)` and do not depend on the
handle at all. -/
theorem C7_handle_only_in_fallback (name realm region u : String) :
    getMemberAutoProfileUrls name realm region (some u) true =
      getMemberAutoProfileUrls name realm region none true ∧
    getMemberAutoProfileUrls name realm region (some u) false =
      [raiderIOProfileUrl name realm region, u ++ "&locale=en_US"] ∧
    blizzardAchievementsAndPvPBaseUrl name realm region =
      blizzardManualCharacterBaseUrl name realm region := by
  exact ⟨rfl, rfl, rfl⟩

/-- Prior stored record for the C1 counterexample: a member with known
mythic-plus score, raid progress and PvP rating. -/
def c1Prior : StoredMember :=
  { mkMember "Krabs" "realm1" with
    level := some 80
    item_level := some 650
    mythic_plus_score := some 3000
    raid_progress := some "8/8 M"
    current_pvp_rating := 1800 }

/-- Blizzard fallback outcome for the C1 counterexample: the profile
request succeeds but achievements, every PvP bracket and the PvP summary
fail (all caught by the source). -/
def c1Fetch : BlizzardOutcome :=
  { character := ⟨some "Mage", some 80, some 600, none⟩,
    achievements_total_points := none, pvp2v2 := none, pvp3v3 := none, pvpRbg := none,
    shuffleBrackets := none }

/-- The row persisted by the C1 counterexample run. -/
def c1After : StoredMember :=
  { c1Prior with
    class_ := some "Mage"
    item_level := some 600
    mythic_plus_score := some 0
    current_pvp_rating := 0
    raid_progress := none
    last_updated := 99 }

/-- C1 counterexample: the enrichment upsert is NOT monotone.  When
Raider.IO fails and the Blizzard fallback answers (a partial fetch in
which the mythic-plus, raid-progress and PvP providers supplied nothing),
the persisted record reverts the previously known mythic-plus score 3000
to 0, the raid progress to null and the PvP rating 1800 to 0. -/
theorem C1_merge_counterexample :
    upsertGuildMember [c1Prior] (acsUpsertInput c1Prior (getMemberFromBlizzard c1Fetch)) 99 =
      .ok [c1After] ∧
    c1Prior.mythic_plus_score = some 3000 ∧ c1After.mythic_plus_score = some 0 ∧
    c1Prior.raid_progress = some "8/8 M" ∧ c1After.raid_progress = none ∧
    c1Prior.current_pvp_rating = 1800 ∧ c1After.current_pvp_rating = 0 ∧
    (getMemberFromBlizzard c1Fetch).mythic_plus_score = 0 ∧
    (getMemberFromBlizzard c1Fetch).raid_progress = none := by
  exact ⟨rfl, rfl, rfl, rfl, rfl, rfl, rfl, rfl, rfl⟩

/-- C1 (amended): the enrichment upsert merges as follows for an existing
row with the member's key — `level` and every column outside the update
clause (the bracket ratings, achievement points, season, activity fields)
keep their stored values, while `class` (only when the fetched class is
falsy does the stored class survive), `item_level`, `mythic_plus_score`,
`current_pvp_rating` and `raid_progress` are unconditionally overwritten
with the fetched values — including the fallback's hard-coded `0`/`null`
for fields its provider cannot supply, so the merge is not monotone. -/
theorem C1_enrichment_merge (db : List StoredMember) (R : StoredMember) (F : MemberData)
    (now : Int) (hn : R.character_name ≠ "") (hr : R.realm ≠ "")
    (hmem : db.any (fun r => memberKeyMatches r R.character_name R.realm) = true) :
    upsertGuildMember db (acsUpsertInput R F) now =
      .ok (db.map fun r =>
        if memberKeyMatches r R.character_name R.realm then
          { r with
            class_ := if F.character_class ≠ "" then some F.character_class else R.class_
            item_level := some F.item_level
            mythic_plus_score := some F.mythic_plus_score
            current_pvp_rating := F.current_pvp_rating
            raid_progress := F.raid_progress
            last_updated := now }
        else r) := by
  have hcond : ((jsOrStr (acsUpsertInput R F).character_name (acsUpsertInput R F).name).truthyStr &&
      (acsUpsertInput R F).realm.truthyStr) = true := by
    simp [acsUpsertInput, jsOrStr, JsVal.truthyStr, hn, hr]
  have hshow1 : jsShowStr (jsOrStr (acsUpsertInput R F).character_name (acsUpsertInput R F).name) =
      R.character_name := by
    simp [acsUpsertInput, jsOrStr, JsVal.truthyStr, hn, jsShowStr]
  have hshow2 : jsShowStr (acsUpsertInput R F).realm = R.realm := by
    simp [acsUpsertInput, jsShowStr]
  simp only [upsertGuildMember, hcond, if_true, hshow1, hshow2, hmem]
  refine congrArg Except.ok (List.map_congr_left ?_)
  intro r _
  by_cases hk : memberKeyMatches r R.character_name R.realm
  · rw [if_pos hk, if_pos hk]
    show upsertUpdate r (acsUpsertInput R F) now = _
    rw [upsertUpdate]
    by_cases hc : F.character_class ≠ ""
    · cases hrp : F.raid_progress <;>
        simp [acsUpsertInput, prismaSet, jsOrZero, hc, hrp]
    · cases hrp : F.raid_progress <;> cases hcl : R.class_ <;>
        simp [acsUpsertInput, prismaSet, jsOrZero, hc, hrp, hcl]
  · rw [if_neg hk, if_neg hk]

/-- Witness for C1 (amended) at the counterexample instance. -/
theorem C1_enrichment_merge_witness :
    upsertGuildMember [c1Prior] (acsUpsertInput c1Prior (getMemberFromBlizzard c1Fetch)) 99 =
      .ok ([c1Prior].map fun r =>
        if memberKeyMatches r c1Prior.character_name c1Prior.realm then
          { r with
            class_ := if (getMemberFromBlizzard c1Fetch).character_class ≠ "" then
                some (getMemberFromBlizzard c1Fetch).character_class
              else c1Prior.class_
            item_level := some (getMemberFromBlizzard c1Fetch).item_level
            mythic_plus_score := some (getMemberFromBlizzard c1Fetch).mythic_plus_score
            current_pvp_rating := (getMemberFromBlizzard c1Fetch).current_pvp_rating
            raid_progress := (getMemberFromBlizzard c1Fetch).raid_progress
            last_updated := 99 }
        else r) :=
  C1_enrichment_merge [c1Prior] c1Prior (getMemberFromBlizzard c1Fetch) 99
    (by decide) (by decide) (by decide)

/-- Whether `getMember` returned data. -/
def isOkFetch : FetchResult → Bool
  | .ok _ => true
  | _ => false

/-- The enrichment upsert never throws for a member whose key is complete. -/
theorem acsUpsert_ok (db : List StoredMember) (m : StoredMember) (d : MemberData) (now : Int)
    (hn : m.character_name ≠ "") (hr : m.realm ≠ "") :
    ∃ db2, upsertGuildMember db (acsUpsertInput m d) now = .ok db2 := by
  have hcond : ((jsOrStr (acsUpsertInput m d).character_name (acsUpsertInput m d).name).truthyStr &&
      (acsUpsertInput m d).realm.truthyStr) = true := by
    simp [acsUpsertInput, jsOrStr, JsVal.truthyStr, hn, hr]
  simp only [upsertGuildMember, hcond, if_true]
  split
  · exact ⟨_, rfl⟩
  · exact ⟨_, rfl⟩

/-- Accounting of one loop iteration: each member bumps exactly one of the
two counters, never writes a `sync_errors` row, and appends one
`recentErrors` entry exactly when the fetch did not return data. -/
theorem acsProcessMember_accounting (st : SyncState) (m : StoredMember) (res : FetchResult)
    (now : Int) (hn : m.character_name ≠ "") (hr : m.realm ≠ "") :
    (acsProcessMember st m res now).syncedCount + (acsProcessMember st m res now).errorCount =
      st.syncedCount + st.errorCount + 1 ∧
    (acsProcessMember st m res now).syncErrors = st.syncErrors ∧
    (acsProcessMember st m res now).recentErrors.length =
      st.recentErrors.length + (if isOkFetch res then 0 else 1) := by
  cases res with
  | ok d =>
    obtain ⟨db2, hdb⟩ := acsUpsert_ok st.db m d now hn hr
    simp [acsProcessMember, hdb, isOkFetch]
    omega
  | noData => simp [acsProcessMember, isOkFetch]; omega
  | failed msg => simp [acsProcessMember, isOkFetch]; omega

/-- Accounting of the whole batch loop while the service keeps running:
every member is processed, the persisted error store is untouched, and one
`recentErrors` entry appears per member without data. -/
theorem acsLoop_accounting (fetch : StoredMember → FetchResult) (now : Int) :
    ∀ (ms : List StoredMember) (st : SyncState) (i : Nat),
    (∀ m ∈ ms, m.character_name ≠ "" ∧ m.realm ≠ "") →
    ((runActiveCharacterSyncLoop fetch (fun _ => true) now ms i st).syncedCount +
        (runActiveCharacterSyncLoop fetch (fun _ => true) now ms i st).errorCount =
      st.syncedCount + st.errorCount + ms.length) ∧
    (runActiveCharacterSyncLoop fetch (fun _ => true) now ms i st).syncErrors = st.syncErrors ∧
    (runActiveCharacterSyncLoop fetch (fun _ => true) now ms i st).recentErrors.length =
      st.recentErrors.length + (ms.filter fun m => !(isOkFetch (fetch m))).length := by
  intro ms
  induction ms with
  | nil =>
    intro st i _
    simp [runActiveCharacterSyncLoop]
  | cons m rest ih =>
    intro st i hvalid
    obtain ⟨hm, hrest⟩ := List.forall_mem_cons.mp hvalid
    obtain ⟨hacc1, hacc2, hacc3⟩ := acsProcessMember_accounting st m (fetch m) now hm.1 hm.2
    have hloop : runActiveCharacterSyncLoop fetch (fun _ => true) now (m :: rest) i st =
        runActiveCharacterSyncLoop fetch (fun _ => true) now rest (i + 1)
          (acsProcessMember st m (fetch m) now) := rfl
    obtain ⟨h1, h2, h3⟩ := ih (acsProcessMember st m (fetch m) now) (i + 1) hrest
    refine ⟨?_, ?_, ?_⟩
    · rw [hloop, h1]
      simp only [List.length_cons]
      omega
    · rw [hloop, h2, hacc2]
    · rw [hloop, h3, hacc3, List.filter_cons]
      cases hok : isOkFetch (fetch m)
      · simp [hok]
        omega
      · simp [hok]

/-- C4 sample batch: `Xerath`'s fetch throws, `Yrel`'s succeeds. -/
def c4X : StoredMember := mkMember "Xerath" "r1"

def c4Y : StoredMember := mkMember "Yrel" "r1"

def c4Data : MemberData :=
  ⟨"blizzard", "Mage", 80, 600, 0, none, 0, none, 0, 0, 0, 0, 0, 0⟩

def c4Fetch : StoredMember → FetchResult := fun m =>
  if m.character_name == "Xerath" then .failed "Request failed with status code 404"
  else .ok c4Data

def c4Init : SyncState := ⟨[c4X, c4Y], [], [], 0, 0⟩

/-- C4 counterexample: in a 2-member batch where `Xerath`'s provider fetch
fails, the remaining member is still processed and exactly one entry for
`Xerath` lands in the in-memory `recentErrors` array — but NO `SyncError`
row is appended to the persisted error store (the claim demands exactly
one), and `Xerath`'s stored row is untouched. -/
theorem C4_syncerror_counterexample :
    (runActiveCharacterSyncLoop c4Fetch (fun _ => true) 5 [c4X, c4Y] 0 c4Init).syncErrors = [] ∧
    (([] : List SyncError).countP (fun e => e.character_name == "Xerath")) ≠ 1 ∧
    (runActiveCharacterSyncLoop c4Fetch (fun _ => true) 5 [c4X, c4Y] 0 c4Init).syncedCount = 1 ∧
    (runActiveCharacterSyncLoop c4Fetch (fun _ => true) 5 [c4X, c4Y] 0 c4Init).recentErrors =
      [("Xerath", "Request failed with status code 404")] ∧
    (runActiveCharacterSyncLoop c4Fetch (fun _ => true) 5 [c4X, c4Y] 0 c4Init).db.head? =
      some c4X := by
  exact ⟨rfl, by decide, rfl, rfl, rfl⟩

/-- C4 (amended): per-member failure isolation holds, but the error record
goes to the in-memory `recentErrors` array, not the persisted `SyncError`
store — over any batch (all keys complete, service running) every member
is processed exactly once, the `sync_errors` table is left exactly as it
was, `recentErrors` gains exactly one entry per member whose fetch
returned no data, and a failed iteration leaves the member table
untouched. -/
theorem C4_failure_isolation (ms : List StoredMember) (fetch : StoredMember → FetchResult)
    (now : Int) (st : SyncState) (i : Nat)
    (hvalid : ∀ m ∈ ms, m.character_name ≠ "" ∧ m.realm ≠ "") :
    ((runActiveCharacterSyncLoop fetch (fun _ => true) now ms i st).syncedCount +
        (runActiveCharacterSyncLoop fetch (fun _ => true) now ms i st).errorCount =
      st.syncedCount + st.errorCount + ms.length) ∧
    (runActiveCharacterSyncLoop fetch (fun _ => true) now ms i st).syncErrors = st.syncErrors ∧
    (runActiveCharacterSyncLoop fetch (fun _ => true) now ms i st).recentErrors.length =
      st.recentErrors.length + (ms.filter fun m => !(isOkFetch (fetch m))).length ∧
    (∀ (st2 : SyncState) (member : StoredMember) (msg : String),
      (acsProcessMember st2 member (.failed msg) now).db = st2.db ∧
      (acsProcessMember st2 member .noData now).db = st2.db) := by
  obtain ⟨h1, h2, h3⟩ := acsLoop_accounting fetch now ms st i hvalid
  exact ⟨h1, h2, h3, fun st2 member msg => ⟨rfl, rfl⟩⟩

/-- Witness for C4 (amended) on the concrete 2-member batch. -/
theorem C4_failure_isolation_witness :
    ((runActiveCharacterSyncLoop c4Fetch (fun _ => true) 5 [c4X, c4Y] 0 c4Init).syncedCount +
        (runActiveCharacterSyncLoop c4Fetch (fun _ => true) 5 [c4X, c4Y] 0 c4Init).errorCount =
      c4Init.syncedCount + c4Init.errorCount + [c4X, c4Y].length) ∧
    (runActiveCharacterSyncLoop c4Fetch (fun _ => true) 5 [c4X, c4Y] 0 c4Init).syncErrors =
      c4Init.syncErrors ∧
    (runActiveCharacterSyncLoop c4Fetch (fun _ => true) 5 [c4X, c4Y] 0 c4Init).recentErrors.length =
      c4Init.recentErrors.length + ([c4X, c4Y].filter fun m => !(isOkFetch (c4Fetch m))).length ∧
    (∀ (st2 : SyncState) (member : StoredMember) (msg : String),
      (acsProcessMember st2 member (.failed msg) 5).db = st2.db ∧
      (acsProcessMember st2 member .noData 5).db = st2.db) :=
  C4_failure_isolation [c4X, c4Y] c4Fetch 5 c4Init 0 (by decide)

/-- Generalized shutdown lemma: if the running flag reads true exactly for
iteration indices below `k`, the loop started at index `i` performs the
full per-member step for exactly the first `k - i` members and stops. -/
theorem acsLoop_stops_at (fetch : StoredMember → FetchResult) (running : Nat → Bool) (now : Int)
    (k : Nat) (hrun : ∀ i, running i = true ↔ i < k) :
    ∀ (ms : List StoredMember) (i : Nat) (st : SyncState),
    runActiveCharacterSyncLoop fetch running now ms i st =
      (ms.take (k - i)).foldl (fun s m => acsProcessMember s m (fetch m) now) st := by
  intro ms
  induction ms with
  | nil =>
    intro i st
    simp [runActiveCharacterSyncLoop]
  | cons m rest ih =>
    intro i st
    rw [runActiveCharacterSyncLoop]
    by_cases hi : i < k
    · rw [if_pos ((hrun i).mpr hi)]
      have htake : (m :: rest).take (k - i) = m :: rest.take (k - (i + 1)) := by
        have hk : k - i = (k - (i + 1)) + 1 := by omega
        rw [hk]
        rfl
      rw [htake, List.foldl_cons]
      exact ih (i + 1) (acsProcessMember st m (fetch m) now)
    · have hfalse : running i = false := by
        cases h : running i
        · rfl
        · exact absurd ((hrun i).mp h) hi
      rw [hfalse]
      have hk0 : k - i = 0 := by omega
      rw [hk0]
      rfl

/-- C8: graceful shutdown never initiates new member fetches — if `stop()`
clears the running flag before iteration `k`, the batch loop equals the
full per-member fold over exactly the first `k` members: the member in
flight when the flag was still set completes its whole iteration
(including its upsert), every already-upserted member stays persisted in
the folded state, and no member from index `k` onward is fetched. -/
theorem C8_graceful_shutdown (fetch : StoredMember → FetchResult) (running : Nat → Bool)
    (now : Int) (ms : List StoredMember) (st : SyncState) (k : Nat)
    (hrun : ∀ i, running i = true ↔ i < k) :
    runActiveCharacterSyncLoop fetch running now ms 0 st =
      (ms.take k).foldl (fun s m => acsProcessMember s m (fetch m) now) st := by
  have h := acsLoop_stops_at fetch running now k hrun ms 0 st
  simpa using h

/-- Witness for C8: the flag is cleared after the first iteration of a
2-member batch, so exactly the first member is processed. -/
theorem C8_graceful_shutdown_witness :
    runActiveCharacterSyncLoop c4Fetch (fun i => decide (i < 1)) 5 [c4X, c4Y] 0 c4Init =
      ([c4X, c4Y].take 1).foldl (fun s m => acsProcessMember s m (c4Fetch m) 5) c4Init :=
  C8_graceful_shutdown c4Fetch (fun i => decide (i < 1)) 5 [c4X, c4Y] c4Init 1
    (fun _ => decide_eq_true_iff)

end WowGuildSync
